import Mathlib

/-!
Verification development for the `gobits` configuration package
(`pkg/config/config.go`).  The settings engine (spf13/viper) is an external
collaborator of the package; it is modelled here as a layered key/value
store with viper's documented lookup precedence
(override set by `Set` > automatic environment > config file > remote
key/value store > defaults), which is exactly the part of its behaviour the
package relies on.  The repository's own functions
(`LocalConfigProvider.Load`, `RemoteConfigProvider.Load`, `ConfigManager.*`,
`New`, `Watch`) are translated statement by statement from
`pkg/config/config.go`.
-/

namespace Gobits

/-- A dynamically typed configuration value (Go `interface{}` content).
Strings, integers and booleans cover every value the claims exercise. -/
inductive Value where
  | vStr (s : String)
  | vInt (n : Int)
  | vBool (b : Bool)
  deriving DecidableEq, Repr

/-- One layer of the viper store: an association list from (lowercased) key
to an optional value.  An entry `(k, none)` models a Go map entry holding a
`nil` interface value (written by `viper.Set(key, nil)`); viper's `find`
treats such an entry exactly like an absent key (the `val != nil` guard in
`find` falls through to the next layer). -/
abbrev Layer := List (String × Option Value)

/-- Remove every entry of `m` whose key is `k` (Go map overwrite helper). -/
def layerErase (m : Layer) (k : String) : Layer :=
  m.filter (fun p => p.1 ≠ k)

/-- Write `entry` under key `k`, replacing any previous entry (Go map
assignment `m[k] = value`). -/
def layerInsert (m : Layer) (k : String) (entry : Option Value) : Layer :=
  (k, entry) :: layerErase m k

/-- Look a key up in one layer.  A stored `nil` (entry `none`) yields
`none`, matching viper's fall-through on nil values. -/
def layerFind : Layer → String → Option Value
  | [], _ => none
  | (k, entry) :: m, lk => if k = lk then entry else layerFind m lk

/-- The keys present in one layer (nil-valued entries included, as in a Go
map). -/
def layerKeys (m : Layer) : List String := m.map Prod.fst

/-- The process environment: association list from variable name to value. -/
abbrev EnvMap := List (String × String)

/-- `os.LookupEnv` as viper's `getEnv` consumes it: with viper's default
`allowEmptyEnv = false`, a variable set to the empty string counts as
unset. -/
def envLookup (env : EnvMap) (name : String) : Option String :=
  match env.lookup name with
  | some s => if s = "" then none else some s
  | none => none

/-- `strings.NewReplacer(".", "_")` applied to a string — the env key
replacer installed by `LocalConfigProvider.Load`
(config.go line 313). -/
def replaceDotUnderscore (s : String) : String :=
  String.mk (s.toList.map (fun c => if c = '.' then '_' else c))

/-- `strings.ToLower` on the ASCII keys this package handles. -/
def goToLower (s : String) : String :=
  String.mk (s.toList.map Char.toLower)

/-- `strings.ToUpper` on the ASCII names this package handles. -/
def goToUpper (s : String) : String :=
  String.mk (s.toList.map Char.toUpper)

/-- The viper instance owned by a `ConfigManager` (config.go line 76,
created by `viper.New()` at line 101): the five value layers the package
touches plus the environment configuration.  `envKeyReplacer` records
whether `SetEnvKeyReplacer(strings.NewReplacer(".", "_"))` was called,
`automaticEnv` whether `AutomaticEnv()` was called. -/
structure Viper where
  override : Layer := []
  config : Layer := []
  kvstore : Layer := []
  defaults : Layer := []
  envPrefix : String := ""
  envKeyReplacer : Bool := false
  automaticEnv : Bool := false
  configType : Option String := none
  deriving DecidableEq, Repr

/-- `viper.New()`: every layer empty, no env configuration. -/
def Viper.new : Viper := {}

/-- viper's `mergeWithEnvPrefix` followed by `getEnv`'s key replacement:
the environment variable name consulted for a (lowercased) key. -/
def Viper.envVarName (v : Viper) (lk : String) : String :=
  let merged := if v.envPrefix = "" then goToUpper lk else goToUpper (v.envPrefix ++ "_" ++ lk)
  if v.envKeyReplacer then replaceDotUnderscore merged else merged

/-- The environment layer of viper's `find`: consulted only when
`AutomaticEnv()` was called; yields the variable's (string) value. -/
def Viper.envValue (v : Viper) (env : EnvMap) (lk : String) : Option Value :=
  if v.automaticEnv then (envLookup env (v.envVarName lk)).map Value.vStr else none

/-- viper's `find` on an already-lowercased key: override layer first, then
the automatic environment, the config-file layer, the remote key/value
store layer, and the defaults layer last.  Each layer is skipped when it
yields nil. -/
def Viper.find (v : Viper) (env : EnvMap) (lk : String) : Option Value :=
  layerFind v.override lk <|>
    (v.envValue env lk <|>
      (layerFind v.config lk <|>
        (layerFind v.kvstore lk <|> layerFind v.defaults lk)))

/-- `viper.Get`: lowercases the key, then `find`. -/
def Viper.get (v : Viper) (env : EnvMap) (key : String) : Option Value :=
  v.find env (goToLower key)

/-- `viper.IsSet`: true when `find` yields a non-nil value. -/
def Viper.isSet (v : Viper) (env : EnvMap) (key : String) : Bool :=
  (v.get env key).isSome

/-- `viper.Set`: writes into the override layer under the lowercased key.
Writing `none` models `Set(key, nil)`. -/
def Viper.set (v : Viper) (key : String) (entry : Option Value) : Viper :=
  { v with override := layerInsert v.override (goToLower key) entry }

/-- `viper.SetDefault`: writes into the defaults layer under the
lowercased key. -/
def Viper.setDefault (v : Viper) (key : String) (val : Value) : Viper :=
  { v with defaults := layerInsert v.defaults (goToLower key) (some val) }

/-- `viper.AllKeys`: the union of the keys of all layers (order
irrelevant; nil-valued override entries are still keys of their map). -/
def Viper.allKeys (v : Viper) : List String :=
  (layerKeys v.override ++ layerKeys v.config ++ layerKeys v.kvstore ++
    layerKeys v.defaults).dedup

/-- Parsed file or remote payload, as stored into a viper layer: keys are
lowercased (viper `insensitivise`), values are never nil. -/
def toLayer (data : List (String × Value)) : Layer :=
  data.map (fun p => (goToLower p.1, some p.2))

/-- The `for key, value := range l.defaults { l.viper.SetDefault(key, value) }`
loop shared by both providers (config.go lines 303-308 and 409-411). -/
def setDefaults (v : Viper) (ds : List (String × Value)) : Viper :=
  ds.foldl (fun v p => v.setDefault p.1 p.2) v

/-- The clearing loop at the start of `LocalConfigProvider.Load`
(config.go lines 295-300): `for _, key := range l.viper.AllKeys()
{ l.viper.Set(key, nil) }`.  (The preceding bare `AllSettings()` and
`AllKeys()` calls discard their results.) -/
def clearSettings (v : Viper) : Viper :=
  v.allKeys.foldl (fun v k => v.set k none) v

/-- Helper of `filepathExt`: walk the path's characters from the end,
collecting the suffix, until a dot (extension found) or a path separator
(no extension) is met. -/
def filepathExtAux : List Char → List Char → String
  | [], _ => ""
  | c :: rest, acc =>
    if c = '/' then ""
    else if c = '.' then String.mk ('.' :: acc)
    else filepathExtAux rest (c :: acc)

/-- `filepath.Ext`: the suffix of the path starting at the final dot of
its last element, empty when there is none. -/
def filepathExt (path : String) : String :=
  filepathExtAux path.toList.reverse []

/-- `strings.TrimPrefix(ext, ".")`. -/
def trimDot (s : String) : String :=
  match s.toList with
  | '.' :: rest => String.mk rest
  | _ => s

/-- The outcome of `os.Stat` plus reading/parsing the file at the
provider's path: the file is absent, stat itself failed, or the file is
present and its bytes parse into key/value data or fail to. -/
inductive FileState where
  | absent
  | statError (msg : String)
  | present (content : Except String (List (String × Value)))

/-- One entry of a `validator.ValidationErrors` slice: the fully-qualified
field namespace (`e.Namespace()`) and the violated rule tag (`e.Tag()`). -/
structure Violation where
  nameSpace : String
  tag : String
  deriving DecidableEq, Repr

/-- Every error a `Load` call of this package can surface, one constructor
per `return`-an-error site of config.go. -/
inductive LoadErr where
  /-- line 326: `error reading config file: %w`. -/
  | readConfigFailed (msg : String)
  /-- line 329: `no configuration file found at %s and no defaults provided`. -/
  | sourceNotFound (path : String)
  /-- line 331: `error checking config file: %w`. -/
  | statFailed (msg : String)
  /-- lines 340-342 and 428-432: the `viper.Unmarshal` error, returned verbatim. -/
  | decodeFailed (msg : String)
  /-- lines 365-366: `validation failed for field '%s': %s` with the field's
  fully-qualified namespace and the violated rule tag. -/
  | validationFailed (fieldPath ruleName : String)
  /-- line 369: a validator error that is not a `ValidationErrors`, returned verbatim. -/
  | validatorOther (msg : String)
  /-- line 435: the raw `validator.Struct` error of the remote provider,
  returned without reformatting. -/
  | validatorRaw (errs : List Violation)
  /-- lines 392-402: the `AddRemoteProvider` error. -/
  | addRemoteProviderFailed (msg : String)
  /-- lines 418-423: the `ReadRemoteConfig` error. -/
  | readRemoteFailed (msg : String)
  /-- line 454: `ErrTimeout = errors.New("operation timed out")` (line 94). -/
  | timeout
  /-- `ErrClosed = errors.New("config manager is closed")` (line 95). -/
  | closed
  deriving DecidableEq, Repr

/-- The outcome of `validator.StructCtx` / `validator.Struct` on a schema
value: success, a non-empty `ValidationErrors` slice, or some other
error. -/
inductive ValidateOutcome where
  | ok
  | invalid (first : Violation) (rest : List Violation)
  | otherError (msg : String)
  deriving DecidableEq, Repr

/-- The external schema machinery attached to a provider: `viper.Unmarshal`
(mapstructure decoding of the store into the schema type `σ`) and
`validator` (the declared field constraints).  Both are external
collaborators, so they enter the model as opaque functions. -/
structure SchemaBinder (σ : Type) where
  decode : Viper → EnvMap → Except String σ
  validate : σ → ValidateOutcome

/-- The result of one provider `Load`: the viper store after the call, the
schema object's contents after the call (written by reference), and the
returned error (`none` = success). -/
structure LoadResult (σ : Type) where
  viper : Viper
  schemaVal : Option σ
  error : Option LoadErr

/-- `LocalConfigProvider` (config.go lines 284-292): path, defaults map,
env prefix, and the optional schema with its validator.  The source keeps
`schema interface{}` and `validate *validator.Validate` as two fields and
guards both for nil; `New` always sets `validate`, so the schema machinery
is present exactly when a schema is. -/
structure LocalConfigProvider (σ : Type) where
  path : String
  defaults : List (String × Value)
  envPrefix : String
  schema : Option (SchemaBinder σ)

/-- `LocalConfigProvider.validateConfig` (config.go lines 354-372): on a
`ValidationErrors` outcome the loop body returns on its first element,
formatting the field namespace and the rule tag; any other validator error
is returned verbatim; success is nil. -/
def LocalConfigProvider.validateConfig : ValidateOutcome → Option LoadErr
  | .ok => none
  | .invalid e _ => some (.validationFailed e.nameSpace e.tag)
  | .otherError msg => some (.validatorOther msg)

/-- Steps 1-4 of `LocalConfigProvider.Load` (config.go lines 295-320):
clear all current keys via `Set(key, nil)`, re-apply the defaults,
configure the environment overlay (prefix, dot-to-underscore replacer,
automatic env) when a prefix is set, and derive the config type from the
path's extension. -/
def LocalConfigProvider.prepare {σ : Type} (l : LocalConfigProvider σ) (v0 : Viper) : Viper :=
  let v1 := clearSettings v0
  let v2 := setDefaults v1 l.defaults
  let v3 := if l.envPrefix ≠ "" then
      { v2 with envPrefix := l.envPrefix, envKeyReplacer := true, automaticEnv := true }
    else v2
  if filepathExt l.path ≠ "" then
    { v3 with configType := some (trimDot (filepathExt l.path)) }
  else v3

/-- The schema tail of both providers' `Load` (config.go lines 338-349):
no schema means immediate success; otherwise `Unmarshal` (whose failure is
returned verbatim and leaves the schema object as it was), then
`validateConfig` on the freshly written schema value. -/
def LocalConfigProvider.finishLoad {σ : Type} (l : LocalConfigProvider σ) (v : Viper)
    (env : EnvMap) (sv0 : Option σ) : LoadResult σ :=
  match l.schema with
  | none => ⟨v, sv0, none⟩
  | some sb =>
    match sb.decode v env with
    | .error msg => ⟨v, sv0, some (.decodeFailed msg)⟩
    | .ok sv =>
      match LocalConfigProvider.validateConfig (sb.validate sv) with
      | some e => ⟨v, some sv, some e⟩
      | none => ⟨v, some sv, none⟩

/-- `LocalConfigProvider.Load` (config.go lines 294-352).  After
`prepare`: a present file is read into the config layer (replacing it
wholly, as `ReadInConfig` does) or its parse error is returned; an absent
file is an error exactly when the defaults map is empty; a stat failure is
an error; then the schema step runs. -/
def LocalConfigProvider.load {σ : Type} (l : LocalConfigProvider σ) (fs : FileState)
    (env : EnvMap) (v0 : Viper) (sv0 : Option σ) : LoadResult σ :=
  let v := l.prepare v0
  match fs with
  | .present (.error msg) => ⟨v, sv0, some (.readConfigFailed msg)⟩
  | .present (.ok data) => l.finishLoad { v with config := toLayer data } env sv0
  | .absent =>
    if l.defaults.isEmpty then ⟨v, sv0, some (.sourceNotFound l.path)⟩
    else l.finishLoad v env sv0
  | .statError msg => ⟨v, sv0, some (.statFailed msg)⟩

/-- `RemoteProvider` descriptor (config.go lines 55-59). -/
structure RemoteProvider where
  type : String
  endpoint : String
  path : String
  deriving DecidableEq, Repr

/-- `RemoteConfigProvider` (config.go lines 375-383). -/
structure RemoteConfigProvider (σ : Type) where
  provider : RemoteProvider
  defaults : List (String × Value)
  envPrefix : String
  schema : Option (SchemaBinder σ)

/-- The internal deadline of `RemoteConfigProvider.Load`, from
`context.WithTimeout(context.Background(), 30*time.Second)` at config.go
line 386 — created inside `Load` itself; the method takes no caller
context, so no caller-supplied deadline can reach it. -/
def remoteLoadTimeoutSeconds : Nat := 30

/-- The I/O outcomes of one remote load attempt: the `AddRemoteProvider`
error if any, the `ReadRemoteConfig` outcome, and how many seconds the
fetch goroutine needs before it posts its result to `errCh`. -/
structure RemoteFetch where
  addProviderError : Option String
  fetched : Except String (List (String × Value))
  elapsedSeconds : Nat

/-- The body of the goroutine of `RemoteConfigProvider.Load` (config.go
lines 390-446): add the remote provider, fix the config type to json, set
defaults, enable the env overlay (note: `SetEnvPrefix`/`AutomaticEnv` only
— no `SetEnvKeyReplacer` on this path), read the remote payload into the
key/value-store layer (replacing it wholly, as `ReadRemoteConfig` does),
then decode and validate when a schema is configured.  The remote
validation branch returns the raw `validator.Struct` error. -/
def RemoteConfigProvider.goroutineBody {σ : Type} (r : RemoteConfigProvider σ)
    (f : RemoteFetch) (env : EnvMap) (v0 : Viper) (sv0 : Option σ) : LoadResult σ :=
  match f.addProviderError with
  | some msg => ⟨v0, sv0, some (.addRemoteProviderFailed msg)⟩
  | none =>
    let v1 := { v0 with configType := some "json" }
    let v2 := setDefaults v1 r.defaults
    let v3 := if r.envPrefix ≠ "" then
        { v2 with envPrefix := r.envPrefix, automaticEnv := true }
      else v2
    match f.fetched with
    | .error msg => ⟨v3, sv0, some (.readRemoteFailed msg)⟩
    | .ok data =>
      let v4 := { v3 with kvstore := toLayer data }
      match r.schema with
      | none => ⟨v4, sv0, none⟩
      | some sb =>
        match sb.decode v4 env with
        | .error msg => ⟨v4, sv0, some (.decodeFailed msg)⟩
        | .ok sv =>
          match sb.validate sv with
          | .ok => ⟨v4, some sv, none⟩
          | .invalid e rest => ⟨v4, some sv, some (.validatorRaw (e :: rest))⟩
          | .otherError msg => ⟨v4, some sv, some (.validatorOther msg)⟩

/-- `RemoteConfigProvider.Load` (config.go lines 385-456): a select race
between the goroutine's result channel and the 30-second context.  When
the deadline fires first the call returns `ErrTimeout` and the goroutine
is abandoned, so the caller observes the pre-call state at return. -/
def RemoteConfigProvider.load {σ : Type} (r : RemoteConfigProvider σ) (f : RemoteFetch)
    (env : EnvMap) (v0 : Viper) (sv0 : Option σ) : LoadResult σ :=
  if remoteLoadTimeoutSeconds ≤ f.elapsedSeconds then ⟨v0, sv0, some .timeout⟩
  else r.goroutineBody f env v0 sv0

/-- The construction-time option functions (config.go lines 533-567), as
the data each one writes into the `ConfigManager` under construction. -/
inductive ManagerOption where
  | withWatcher
  | withRemoteProvider (rp : RemoteProvider)
  | withSchema
  | withDefaults (d : List (String × Value))
  | withEnvPrefix (p : String)
  | withPollInterval (seconds : Nat)
  deriving Repr

/-- The option-settable fields of a `ConfigManager` with the defaults
`New` gives them (config.go lines 100-109): empty defaults map, 10-second
poll interval, watching disabled, no remote descriptor, no schema. -/
structure ManagerInit where
  path : String
  defaults : List (String × Value) := []
  envPrefix : String := ""
  remoteProvider : Option RemoteProvider := none
  pollIntervalSeconds : Nat := 10
  watchEnabled : Bool := false
  hasSchema : Bool := false
  deriving Repr

/-- Application of one option function to the manager under construction
(config.go lines 533-567). -/
def applyOption (cm : ManagerInit) : ManagerOption → ManagerInit
  | .withWatcher => { cm with watchEnabled := true }
  | .withRemoteProvider rp => { cm with remoteProvider := some rp }
  | .withSchema => { cm with hasSchema := true }
  | .withDefaults d => { cm with defaults := d }
  | .withEnvPrefix p => { cm with envPrefix := p }
  | .withPollInterval s => { cm with pollIntervalSeconds := s }

/-- Which provider variant `New` wired in. -/
inductive ProviderKind where
  | localProvider
  | remoteProvider
  deriving DecidableEq, Repr

/-- Which watcher variant `New` wired in. -/
inductive WatcherKind where
  | localWatcher
  | remoteWatcher
  deriving DecidableEq, Repr

/-- The provider/watcher wiring `New` leaves behind. -/
structure ManagerWiring where
  provider : ProviderKind
  watcher : Option WatcherKind
  deriving DecidableEq, Repr

/-- `New` (config.go lines 99-152): apply the options in order, then wire
the provider and watcher.  A remote descriptor selects the remote
provider, with a remote watcher only when watching was enabled; otherwise
the local provider and — unconditionally — a local watcher. -/
def New (path : String) (opts : List ManagerOption) : ManagerInit × ManagerWiring :=
  let cm := opts.foldl applyOption { path := path }
  let wiring : ManagerWiring :=
    match cm.remoteProvider with
    | some _ =>
      { provider := .remoteProvider,
        watcher := if cm.watchEnabled then some .remoteWatcher else none }
    | none => { provider := .localProvider, watcher := some .localWatcher }
  (cm, wiring)

/-- The mutable state of a running `ConfigManager`: the closed flag, the
viper store, and the contents of the caller-owned schema object. -/
structure CMState (σ : Type) where
  closed : Bool
  viper : Viper
  schemaVal : Option σ

/-- `ConfigManager.Close` (config.go lines 155-166): under the write lock,
a no-op returning nil when already closed, else mark closed; nil either
way. -/
def ConfigManager.close {σ : Type} (s : CMState σ) : Option LoadErr × CMState σ :=
  if s.closed then (none, s) else (none, { s with closed := true })

/-- `ConfigManager.Load` (config.go lines 169-177): under the write lock,
`ErrClosed` when closed, else delegate to the active provider's `Load`
(abstracted here as any state transformer of the provider-load shape). -/
def ConfigManager.load {σ : Type} (doLoad : Viper → Option σ → LoadResult σ)
    (s : CMState σ) : Option LoadErr × CMState σ :=
  if s.closed then (some .closed, s)
  else
    let r := doLoad s.viper s.schemaVal
    (r.error, { s with viper := r.viper, schemaVal := r.schemaVal })

/-- `ConfigManager.GetString` (config.go lines 187-191): a read-locked
`viper.GetString`, i.e. `cast.ToString` of `Get`'s result with `""` for an
absent key.  The closed flag is not consulted. -/
def ConfigManager.getString {σ : Type} (s : CMState σ) (env : EnvMap) (key : String) : String :=
  match s.viper.get env key with
  | some (.vStr str) => str
  | some (.vInt n) => toString n
  | some (.vBool b) => if b then "true" else "false"
  | none => ""

/-- `ConfigManager.IsSet` (config.go lines 243-247): a read-locked
`viper.IsSet`.  The closed flag is not consulted. -/
def ConfigManager.isSet {σ : Type} (s : CMState σ) (env : EnvMap) (key : String) : Bool :=
  s.viper.isSet env key

/-- `ConfigManager.AllKeys` (config.go lines 270-274): a read-locked
`viper.AllKeys`.  The closed flag is not consulted. -/
def ConfigManager.allKeys {σ : Type} (s : CMState σ) : List String :=
  s.viper.allKeys

/-- `ConfigManager.Watch`'s registration outcome (config.go lines
257-267 with the nil-context guard of the watcher variants at lines
464-467 and 503-506): with no watcher wired, return nil immediately and
register nothing; with a watcher, fail on a nil context, else register the
subscription.  The closed flag is not consulted. -/
structure WatchCall where
  err : Option String
  registered : Bool
  deriving DecidableEq, Repr

/-- `ConfigManager.Watch` (config.go lines 257-267). -/
def ConfigManager.watch (w : ManagerWiring) (ctxNil : Bool) : WatchCall :=
  match w.watcher with
  | none => { err := none, registered := false }
  | some _ =>
    if ctxNil then { err := some "context cannot be nil", registered := false }
    else { err := none, registered := true }

/-- Change notifications delivered to the composed callback: one per
change event when a subscription was registered, none otherwise (no
watcher means `Watch` returned without passing `onChange` anywhere). -/
def deliveredNotifications (w : ManagerWiring) (ctxNil : Bool) (changeEvents : Nat) : Nat :=
  if (ConfigManager.watch w ctxNil).registered then changeEvents else 0

/-- What the composed callback built inside `ConfigManager.Watch`
(config.go lines 259-264) does on one change event, as an event list:
it calls `cm.provider.Load()`, logs the error if that reload failed, and
then calls the caller's `onChange` unconditionally.  The
`errorPropagated` and `subscriptionStopped` events exist in the alphabet
so their absence is expressible. -/
inductive WatchEvt where
  | providerLoadCall
  | errorLogged (e : LoadErr)
  | userOnChangeCall
  | errorPropagated (e : LoadErr)
  | subscriptionStopped
  deriving DecidableEq, Repr

/-- The composed `onChange` of `ConfigManager.Watch` (config.go lines
259-264), given the outcome of the `cm.provider.Load()` call it makes. -/
def composedOnChange (loadError : Option LoadErr) : List WatchEvt :=
  [.providerLoadCall] ++
    (match loadError with
     | some e => [.errorLogged e]
     | none => []) ++
    [.userOnChangeCall]

/-- The lock/store alphabet of the manager's methods, for the
reader-writer-lock discipline (config.go `cm.mu`). -/
inductive Evt where
  | rLock
  | rUnlock
  | wLock
  | wUnlock
  | checkClosed
  | storeRead
  | storeWrite
  | userCallback
  deriving DecidableEq, Repr

/-- The event trace of every typed getter, of `IsSet`, `GetSchema`,
`AllKeys` and `AllSettings` (config.go lines 180-281): `RLock`, read the
store, `RUnlock`. -/
def getterTrace : List Evt := [.rLock, .storeRead, .rUnlock]

/-- The event trace of `ConfigManager.Load` (config.go lines 169-177):
`Lock`, check the closed flag, run the provider load (a store mutation)
unless closed, `Unlock`. -/
def managerLoadTrace (closed : Bool) : List Evt :=
  [.wLock, .checkClosed] ++ (if closed then [] else [.storeWrite]) ++ [.wUnlock]

/-- The event trace of the composed callback of `ConfigManager.Watch`
(config.go lines 259-264): it calls `cm.provider.Load()` directly — a
store mutation with no lock acquisition around it — and then the caller's
callback. -/
def watchReloadCallbackTrace : List Evt := [.storeWrite, .userCallback]

/-- Checker: every `storeWrite` of the trace happens while the write lock
is held (the Bool argument carries the lock state). -/
def writesUnderWriteLock : List Evt → Bool → Bool
  | [], _ => true
  | e :: rest, held =>
    match e with
    | .wLock => writesUnderWriteLock rest true
    | .wUnlock => writesUnderWriteLock rest false
    | .storeWrite => held && writesUnderWriteLock rest held
    | _ => writesUnderWriteLock rest held

/-- Checker: every `storeRead` of the trace happens while the read or the
write lock is held. -/
def readsUnderLock : List Evt → Bool → Bool → Bool
  | [], _, _ => true
  | e :: rest, r, w =>
    match e with
    | .rLock => readsUnderLock rest true w
    | .rUnlock => readsUnderLock rest false w
    | .wLock => readsUnderLock rest r true
    | .wUnlock => readsUnderLock rest r false
    | .storeRead => (r || w) && readsUnderLock rest r w
    | _ => readsUnderLock rest r w

/-- What the provider's defaults map supplies for a (lowercased) viper
key: the value of the last matching entry, since each `SetDefault` call
overwrites the previous one for the same lowercased key. -/
def defaultsSupply : List (String × Value) → String → Option Value
  | [], _ => none
  | p :: ds, lk =>
    match defaultsSupply ds lk with
    | some w => some w
    | none => if goToLower p.1 = lk then some p.2 else none

/-- A local provider with a non-empty defaults map, no env prefix and no
schema. -/
def stale1Provider : LocalConfigProvider Unit :=
  { path := "app.yaml", defaults := [("db.port", Value.vInt 5432)], envPrefix := "", schema := none }

/-- A load of `stale1Provider` against a file supplying key `k1`. -/
def stale1First : LoadResult Unit :=
  stale1Provider.load (.present (.ok [("k1", Value.vStr "old")])) [] Viper.new none

/-- A reload of the same provider after the file disappeared: the
absent-path-with-defaults success branch of config.go line 328, starting
from the store the first load left behind. -/
def stale1Second : LoadResult Unit :=
  stale1Provider.load .absent [] stale1First.viper stale1First.schemaVal

/-- A remote provider with env prefix `SYNX` and no schema. -/
def remoteEnvProvider : RemoteConfigProvider Unit :=
  { provider := { type := "consul", endpoint := "localhost:8500", path := "myapp/config" },
    defaults := [], envPrefix := "SYNX", schema := none }

/-- A remote fetch that completes quickly and supplies `server.port`. -/
def remoteEnvFetch : RemoteFetch :=
  { addProviderError := none, fetched := .ok [("server.port", Value.vStr "8500")],
    elapsedSeconds := 1 }

/-- An environment carrying the underscore-mapped override variable for
the dotted key `server.port` under prefix `SYNX`. -/
def remoteEnvMap : EnvMap := [("SYNX_SERVER_PORT", "9090")]

/-- The remote load of `remoteEnvProvider` under `remoteEnvMap`. -/
def remoteEnvLoad : LoadResult Unit :=
  remoteEnvProvider.load remoteEnvFetch remoteEnvMap Viper.new none

/-- A local provider with env prefix `APP`, one default and no schema. -/
def localEnvProvider : LocalConfigProvider Unit :=
  { path := "config.yaml", defaults := [("db.port", Value.vInt 5432)], envPrefix := "APP",
    schema := none }

/-- A schema binder whose decode always succeeds with a fixed witness
value and whose validator always reports one `required` violation on
`AppConfig.Server.Port` — the shape `validator` produces for the sample
schema of the repository when the port is missing. -/
def badPortBinder : SchemaBinder String :=
  { decode := fun _ _ => .ok "decoded-port-0",
    validate := fun _ => .invalid { nameSpace := "AppConfig.Server.Port", tag := "required" } [] }

/-- A local provider carrying `badPortBinder` as its schema. -/
def badPortProvider : LocalConfigProvider String :=
  { path := "app.yaml", defaults := [], envPrefix := "", schema := some badPortBinder }

/-- A load of `badPortProvider` against a file whose port is the invalid
`"0"`: decoding succeeds, validation fails. -/
def badPortLoad : LoadResult String :=
  badPortProvider.load (.present (.ok [("server.port", Value.vStr "0")])) [] Viper.new none

/-- A schema binder whose decode always fails, for the decode/validation
error distinction. -/
def failingDecodeBinder : SchemaBinder String :=
  { decode := fun _ _ => .error "cannot decode field Port of type int",
    validate := fun _ => .ok }

/-- A manager state holding one key, not closed. -/
def closedSample : CMState Unit :=
  { closed := false, viper := Viper.new.set "k" (some (Value.vStr "x")), schemaVal := none }

/-- `closedSample` after `Close()`. -/
def closedAfter : CMState Unit := (ConfigManager.close closedSample).2

/-- A remote fetch whose goroutine needs the full internal deadline. -/
def timeoutFetch : RemoteFetch :=
  { addProviderError := none, fetched := .ok [], elapsedSeconds := 30 }

/-- A sample remote descriptor. -/
def etcdDescriptor : RemoteProvider :=
  { type := "etcd", endpoint := "http://127.0.0.1:4001", path := "/config/app.json" }

/-- Construction options carrying a remote descriptor but no watch
enable. -/
def remoteOpts : List ManagerOption := [.withRemoteProvider etcdDescriptor]

/-! Helper lemmas about the layer operations and the viper pipeline. -/

lemma layerFind_erase_ne (m : Layer) (k lk : String) (h : k ≠ lk) :
    layerFind (layerErase m k) lk = layerFind m lk := by
  induction m with
  | nil => rfl
  | cons p m ih =>
    obtain ⟨pk, pe⟩ := p
    simp only [layerErase, List.filter_cons, ne_eq, decide_not] at ih ⊢
    by_cases hpk : pk = k
    · subst hpk
      have hne : ¬ pk = lk := h
      simp [layerFind, hne, ih]
    · by_cases hpl : pk = lk <;> simp [layerFind, hpk, hpl, ih, Ne.symm h]

lemma layerFind_layerInsert (m : Layer) (k : String) (entry : Option Value) (lk : String) :
    layerFind (layerInsert m k entry) lk = if k = lk then entry else layerFind m lk := by
  by_cases h : k = lk
  · simp [layerInsert, layerFind, h]
  · simp [layerInsert, layerFind, h, layerFind_erase_ne m k lk h]

lemma layerFind_inert (m : Layer) (lk : String) (h : ∀ p ∈ m, p.2 = none) :
    layerFind m lk = none := by
  induction m with
  | nil => rfl
  | cons p m ih =>
    obtain ⟨pk, pe⟩ := p
    have hp : pe = none := h (pk, pe) (List.mem_cons_self _ _)
    have ht : ∀ q ∈ m, q.2 = none := fun q hq => h q (List.mem_cons_of_mem _ hq)
    by_cases hk : pk = lk <;> simp [layerFind, hk, hp, ih ht]

lemma inert_layerInsert (m : Layer) (k : String) (h : ∀ p ∈ m, p.2 = none) :
    ∀ p ∈ layerInsert m k none, p.2 = none := by
  intro p hp
  rcases List.mem_cons.mp hp with h1 | h2
  · rw [h1]
  · exact h p (List.mem_of_mem_filter h2)

lemma clearFold_fields (ks : List String) : ∀ v : Viper,
    (ks.foldl (fun v k => v.set k none) v).config = v.config ∧
    (ks.foldl (fun v k => v.set k none) v).kvstore = v.kvstore ∧
    (ks.foldl (fun v k => v.set k none) v).defaults = v.defaults ∧
    (ks.foldl (fun v k => v.set k none) v).envPrefix = v.envPrefix ∧
    (ks.foldl (fun v k => v.set k none) v).envKeyReplacer = v.envKeyReplacer ∧
    (ks.foldl (fun v k => v.set k none) v).automaticEnv = v.automaticEnv ∧
    (ks.foldl (fun v k => v.set k none) v).configType = v.configType := by
  induction ks with
  | nil => intro v; exact ⟨rfl, rfl, rfl, rfl, rfl, rfl, rfl⟩
  | cons k ks ih => intro v; exact ih (v.set k none)

lemma clearFold_inert (ks : List String) : ∀ v : Viper,
    (∀ p ∈ v.override, p.2 = none) →
    ∀ p ∈ (ks.foldl (fun v k => v.set k none) v).override, p.2 = none := by
  induction ks with
  | nil => intro v h; exact h
  | cons k ks ih =>
    intro v h
    exact ih (v.set k none) (inert_layerInsert v.override (goToLower k) h)

lemma clearSettings_fields (v : Viper) :
    (clearSettings v).config = v.config ∧
    (clearSettings v).kvstore = v.kvstore ∧
    (clearSettings v).defaults = v.defaults ∧
    (clearSettings v).envPrefix = v.envPrefix ∧
    (clearSettings v).envKeyReplacer = v.envKeyReplacer ∧
    (clearSettings v).automaticEnv = v.automaticEnv ∧
    (clearSettings v).configType = v.configType :=
  clearFold_fields v.allKeys v

lemma clearSettings_inert (v : Viper) (h : ∀ p ∈ v.override, p.2 = none) :
    ∀ p ∈ (clearSettings v).override, p.2 = none :=
  clearFold_inert v.allKeys v h

lemma setDefaults_fields (ds : List (String × Value)) : ∀ v : Viper,
    (setDefaults v ds).override = v.override ∧
    (setDefaults v ds).config = v.config ∧
    (setDefaults v ds).kvstore = v.kvstore ∧
    (setDefaults v ds).envPrefix = v.envPrefix ∧
    (setDefaults v ds).envKeyReplacer = v.envKeyReplacer ∧
    (setDefaults v ds).automaticEnv = v.automaticEnv ∧
    (setDefaults v ds).configType = v.configType := by
  induction ds with
  | nil => intro v; exact ⟨rfl, rfl, rfl, rfl, rfl, rfl, rfl⟩
  | cons p ds ih => intro v; exact ih (v.setDefault p.1 p.2)

lemma setDefaults_defaults_find (ds : List (String × Value)) : ∀ (v : Viper) (lk : String),
    layerFind (setDefaults v ds).defaults lk =
      match defaultsSupply ds lk with
      | some w => some w
      | none => layerFind v.defaults lk := by
  induction ds with
  | nil => intro v lk; rfl
  | cons p ds ih =>
    intro v lk
    have hstep : setDefaults v (p :: ds) = setDefaults (v.setDefault p.1 p.2) ds := rfl
    rw [hstep, ih]
    cases hds : defaultsSupply ds lk with
    | some w => simp [defaultsSupply, hds]
    | none =>
      have hins : (v.setDefault p.1 p.2).defaults
          = layerInsert v.defaults (goToLower p.1) (some p.2) := rfl
      simp only [defaultsSupply, hds, hins, layerFind_layerInsert]
      by_cases h : goToLower p.1 = lk <;> simp [h]

lemma defaultsSupply_isSome (ds : List (String × Value)) (lk : String)
    (h : ∃ p ∈ ds, goToLower p.1 = lk) : (defaultsSupply ds lk).isSome = true := by
  induction ds with
  | nil => rcases h with ⟨p, hp, _⟩; cases hp
  | cons q ds ih =>
    rcases h with ⟨p, hp, he⟩
    rcases List.mem_cons.mp hp with h1 | hmem
    · cases hq : defaultsSupply ds lk <;> simp [defaultsSupply, hq, h1 ▸ he]
    · have hs := ih ⟨p, hmem, he⟩
      cases hq : defaultsSupply ds lk with
      | some w => simp [defaultsSupply, hq]
      | none => rw [hq] at hs; cases hs

lemma orElse_isSome (a b : Option Value) (h : b.isSome = true) : (a <|> b).isSome = true := by
  cases a <;> simp [h]

lemma find_isSome_of_defaults (v : Viper) (env : EnvMap) (lk : String)
    (h : (layerFind v.defaults lk).isSome = true) : (v.find env lk).isSome = true := by
  unfold Viper.find
  exact orElse_isSome _ _ (orElse_isSome _ _ (orElse_isSome _ _ (orElse_isSome _ _ h)))

lemma prepare_defaults {σ : Type} (l : LocalConfigProvider σ) (v0 : Viper) :
    (l.prepare v0).defaults = (setDefaults (clearSettings v0) l.defaults).defaults := by
  unfold LocalConfigProvider.prepare
  by_cases h1 : l.envPrefix ≠ "" <;> by_cases h2 : filepathExt l.path ≠ "" <;>
    simp [h1, h2, (setDefaults_fields l.defaults (clearSettings v0)).1]

lemma prepare_defaults_find {σ : Type} (l : LocalConfigProvider σ) (v0 : Viper) (lk : String) :
    layerFind (l.prepare v0).defaults lk =
      match defaultsSupply l.defaults lk with
      | some w => some w
      | none => layerFind v0.defaults lk := by
  rw [prepare_defaults, setDefaults_defaults_find]
  cases defaultsSupply l.defaults lk with
  | some w => rfl
  | none => simp [(clearSettings_fields v0).2.2.1]

lemma prepare_fields {σ : Type} (l : LocalConfigProvider σ) (v0 : Viper)
    (hpre : l.envPrefix ≠ "") :
    (l.prepare v0).override = (clearSettings v0).override ∧
    (l.prepare v0).config = v0.config ∧
    (l.prepare v0).kvstore = v0.kvstore ∧
    (l.prepare v0).envPrefix = l.envPrefix ∧
    (l.prepare v0).envKeyReplacer = true ∧
    (l.prepare v0).automaticEnv = true := by
  obtain ⟨ho, hc, hk, _, _, _, _⟩ := setDefaults_fields l.defaults (clearSettings v0)
  obtain ⟨hc0, hk0, _, _, _, _, _⟩ := clearSettings_fields v0
  unfold LocalConfigProvider.prepare
  by_cases h2 : filepathExt l.path ≠ "" <;>
    simp [hpre, h2, ho, hc, hk, hc0, hk0]

lemma localLoad_schemaNone {σ : Type} (l : LocalConfigProvider σ) (data : List (String × Value))
    (env : EnvMap) (v0 : Viper) (sv0 : Option σ) (hsch : l.schema = none) :
    l.load (.present (.ok data)) env v0 sv0 =
      ⟨{ l.prepare v0 with config := toLayer data }, sv0, none⟩ := by
  simp [LocalConfigProvider.load, LocalConfigProvider.finishLoad, hsch]

lemma find_shape (v : Viper) (env : EnvMap) (lk nm : String) (cfg kv : Layer)
    (dval : Option Value)
    (hov : layerFind v.override lk = none)
    (hauto : v.automaticEnv = true)
    (hn : v.envVarName lk = nm)
    (hc : v.config = cfg)
    (hk : v.kvstore = kv)
    (hd : layerFind v.defaults lk = dval) :
    v.find env lk =
      match envLookup env nm with
      | some s => some (Value.vStr s)
      | none =>
        match layerFind cfg lk with
        | some w => some w
        | none =>
          match layerFind kv lk with
          | some w => some w
          | none => dval := by
  subst hc hk hd hn
  unfold Viper.find Viper.envValue
  rw [hov]
  simp only [Option.none_orElse]
  rw [if_pos hauto]
  rcases he : envLookup env (v.envVarName lk) with _ | s
  · simp only [he, Option.map_none, Option.none_orElse]
    rcases hcc : layerFind v.config lk with _ | w
    · simp only [hcc, Option.none_orElse]
      rcases hkk : layerFind v.kvstore lk with _ | w <;> simp [hkk]
    · simp [hcc]
  · simp [he]

lemma localLoad_get {σ : Type} (l : LocalConfigProvider σ) (data : List (String × Value))
    (env : EnvMap) (v0 : Viper) (sv0 : Option σ) (k : String)
    (hsch : l.schema = none) (hpre : l.envPrefix ≠ "")
    (hov : ∀ p ∈ v0.override, p.2 = none) (hkv : v0.kvstore = []) (hdf : v0.defaults = []) :
    (l.load (.present (.ok data)) env v0 sv0).error = none ∧
    (l.load (.present (.ok data)) env v0 sv0).viper.get env k =
      match envLookup env (replaceDotUnderscore (goToUpper (l.envPrefix ++ "_" ++ goToLower k))) with
      | some s => some (Value.vStr s)
      | none =>
        match layerFind (toLayer data) (goToLower k) with
        | some w => some w
        | none => defaultsSupply l.defaults (goToLower k) := by
  rw [localLoad_schemaNone l data env v0 sv0 hsch]
  refine ⟨rfl, ?_⟩
  obtain ⟨po, pc, pk, pp, pr, pa⟩ := prepare_fields l v0 hpre
  have hovc : layerFind (l.prepare v0).override (goToLower k) = none := by
    rw [po]; exact layerFind_inert _ _ (clearSettings_inert v0 hov)
  have hkvc : (l.prepare v0).kvstore = [] := by rw [pk, hkv]
  have hdefc : layerFind (l.prepare v0).defaults (goToLower k)
      = defaultsSupply l.defaults (goToLower k) := by
    rw [prepare_defaults_find, hdf]
    cases defaultsSupply l.defaults (goToLower k) <;> rfl
  have hname : Viper.envVarName { l.prepare v0 with config := toLayer data } (goToLower k)
      = replaceDotUnderscore (goToUpper (l.envPrefix ++ "_" ++ goToLower k)) := by
    unfold Viper.envVarName
    simp [pp, pr, hpre]
  have hshape := find_shape { l.prepare v0 with config := toLayer data } env (goToLower k)
    (replaceDotUnderscore (goToUpper (l.envPrefix ++ "_" ++ goToLower k)))
    (toLayer data) [] (defaultsSupply l.defaults (goToLower k))
    hovc pa hname rfl hkvc hdefc
  unfold Viper.get
  rw [hshape]
  rcases envLookup env (replaceDotUnderscore (goToUpper (l.envPrefix ++ "_" ++ goToLower k)))
    with _ | s
  · rcases layerFind (toLayer data) (goToLower k) with _ | w <;> rfl
  · rfl

lemma remoteLoad_schemaNone {σ : Type} (r : RemoteConfigProvider σ)
    (rdata : List (String × Value)) (env : EnvMap) (w0 : Viper) (sw0 : Option σ)
    (f : RemoteFetch)
    (hsch : r.schema = none) (hpre : r.envPrefix ≠ "")
    (hadd : f.addProviderError = none) (hfetch : f.fetched = .ok rdata)
    (ht : f.elapsedSeconds < remoteLoadTimeoutSeconds) :
    r.load f env w0 sw0 =
      ⟨{ setDefaults { w0 with configType := some "json" } r.defaults with
           envPrefix := r.envPrefix, automaticEnv := true, kvstore := toLayer rdata },
        sw0, none⟩ := by
  simp [RemoteConfigProvider.load, RemoteConfigProvider.goroutineBody, hsch, hadd, hfetch,
    hpre, Nat.not_le.mpr ht]

lemma remoteLoad_get {σ : Type} (r : RemoteConfigProvider σ) (rdata : List (String × Value))
    (env : EnvMap) (w0 : Viper) (sw0 : Option σ) (f : RemoteFetch) (k : String)
    (hsch : r.schema = none) (hpre : r.envPrefix ≠ "")
    (hov : ∀ p ∈ w0.override, p.2 = none) (hcf : w0.config = []) (hdf : w0.defaults = [])
    (hrep : w0.envKeyReplacer = false)
    (hadd : f.addProviderError = none) (hfetch : f.fetched = .ok rdata)
    (ht : f.elapsedSeconds < remoteLoadTimeoutSeconds) :
    (r.load f env w0 sw0).error = none ∧
    (r.load f env w0 sw0).viper.get env k =
      match envLookup env (goToUpper (r.envPrefix ++ "_" ++ goToLower k)) with
      | some s => some (Value.vStr s)
      | none =>
        match layerFind (toLayer rdata) (goToLower k) with
        | some w => some w
        | none => defaultsSupply r.defaults (goToLower k) := by
  rw [remoteLoad_schemaNone r rdata env w0 sw0 f hsch hpre hadd hfetch ht]
  refine ⟨rfl, ?_⟩
  obtain ⟨so, sc, sk, sp, sr, sa, st⟩ :=
    setDefaults_fields r.defaults ({ w0 with configType := some "json" })
  have hovc : layerFind (setDefaults { w0 with configType := some "json" } r.defaults).override
      (goToLower k) = none := by
    rw [so]; exact layerFind_inert _ _ hov
  have hcfc : (setDefaults { w0 with configType := some "json" } r.defaults).config = [] := by
    rw [sc]; exact hcf
  have hrepc : (setDefaults { w0 with configType := some "json" } r.defaults).envKeyReplacer
      = false := sr.trans hrep
  have hdefc : layerFind (setDefaults { w0 with configType := some "json" } r.defaults).defaults
      (goToLower k) = defaultsSupply r.defaults (goToLower k) := by
    rw [setDefaults_defaults_find]
    have hbase : layerFind ({ w0 with configType := some "json" } : Viper).defaults (goToLower k)
        = none := by
      show layerFind w0.defaults (goToLower k) = none
      rw [hdf]; rfl
    rw [hbase]
    cases defaultsSupply r.defaults (goToLower k) <;> rfl
  have hname : Viper.envVarName
      { setDefaults { w0 with configType := some "json" } r.defaults with
          envPrefix := r.envPrefix, automaticEnv := true, kvstore := toLayer rdata }
      (goToLower k) = goToUpper (r.envPrefix ++ "_" ++ goToLower k) := by
    unfold Viper.envVarName
    simp [hrepc, hpre]
  have hshape := find_shape
    { setDefaults { w0 with configType := some "json" } r.defaults with
        envPrefix := r.envPrefix, automaticEnv := true, kvstore := toLayer rdata }
    env (goToLower k) (goToUpper (r.envPrefix ++ "_" ++ goToLower k))
    [] (toLayer rdata) (defaultsSupply r.defaults (goToLower k))
    hovc rfl hname hcfc rfl hdefc
  unfold Viper.get
  rw [hshape]
  rcases envLookup env (goToUpper (r.envPrefix ++ "_" ++ goToLower k)) with _ | s
  · rcases layerFind (toLayer rdata) (goToLower k) with _ | w <;> rfl
  · rfl

/-! The claim theorems. -/

/-- C1: a successful `Load()` does not always replace the store's content.
After a load from a file supplying `k1`, a second successful `Load()`
against the now-absent path (non-empty defaults, the success branch of
config.go line 328) keeps `k1` readable: `viper.Set(key, nil)` does not
mask the retained config-file layer, so the clearing loop of lines 295-300
clears nothing, and no `ReadInConfig` replaces the stale layer on this
path — `IsSet("k1")` is still true and `Get("k1")` still returns the old
file's value, although neither the (absent) source, nor the defaults, nor
the environment supplies `k1`. -/
theorem c1_stale_key_survives_reload :
    stale1First.error = none ∧
    stale1Second.error = none ∧
    defaultsSupply stale1Provider.defaults "k1" = none ∧
    stale1Second.viper.isSet [] "k1" = true ∧
    stale1Second.viper.get [] "k1" = some (Value.vStr "old") := by
  decide

/-- C2 counterexample: under the Remote variant the dotted key
`server.port` is not overridden by the underscore-mapped environment
variable `SYNX_SERVER_PORT`, although that variable is set and the load
succeeds — the remote path never installs the dot-to-underscore replacer,
so it consults `SYNX_SERVER.PORT` and the remote value wins. -/
theorem c2_remote_underscore_env_counterexample :
    remoteEnvLoad.error = none ∧
    envLookup remoteEnvMap
      (replaceDotUnderscore (goToUpper ("SYNX" ++ "_" ++ "server.port"))) = some "9090" ∧
    remoteEnvLoad.viper.get remoteEnvMap "server.port" = some (Value.vStr "8500") ∧
    ¬ remoteEnvLoad.viper.get remoteEnvMap "server.port" = some (Value.vStr "9090") := by
  decide

/-- C2 (amended): after a successful `Load()`, `Get` resolves each key by
environment override first, then the source layer (file or remote), then
the defaults; the environment variable consulted is the uppercased
`<PREFIX>_<KEY>` with dots replaced by underscores for the Local variant,
and without the dot replacement for the Remote variant, whose load path
never installs the replacer. -/
theorem c2_env_precedence (σ : Type) (l : LocalConfigProvider σ) (r : RemoteConfigProvider σ)
    (data rdata : List (String × Value)) (envL envR : EnvMap) (v0 w0 : Viper)
    (sv0 sw0 : Option σ) (f : RemoteFetch) (k : String)
    (hls : l.schema = none) (hlp : l.envPrefix ≠ "")
    (hov : ∀ p ∈ v0.override, p.2 = none) (hkv : v0.kvstore = []) (hdf : v0.defaults = [])
    (hrs : r.schema = none) (hrp : r.envPrefix ≠ "")
    (hwov : ∀ p ∈ w0.override, p.2 = none) (hwc : w0.config = []) (hwd : w0.defaults = [])
    (hwr : w0.envKeyReplacer = false)
    (hadd : f.addProviderError = none) (hfetch : f.fetched = .ok rdata)
    (ht : f.elapsedSeconds < remoteLoadTimeoutSeconds) :
    ((l.load (.present (.ok data)) envL v0 sv0).error = none ∧
      (l.load (.present (.ok data)) envL v0 sv0).viper.get envL k =
        match envLookup envL
            (replaceDotUnderscore (goToUpper (l.envPrefix ++ "_" ++ goToLower k))) with
        | some s => some (Value.vStr s)
        | none =>
          match layerFind (toLayer data) (goToLower k) with
          | some w => some w
          | none => defaultsSupply l.defaults (goToLower k)) ∧
    ((r.load f envR w0 sw0).error = none ∧
      (r.load f envR w0 sw0).viper.get envR k =
        match envLookup envR (goToUpper (r.envPrefix ++ "_" ++ goToLower k)) with
        | some s => some (Value.vStr s)
        | none =>
          match layerFind (toLayer rdata) (goToLower k) with
          | some w => some w
          | none => defaultsSupply r.defaults (goToLower k)) :=
  ⟨localLoad_get l data envL v0 sv0 k hls hlp hov hkv hdf,
   remoteLoad_get r rdata envR w0 sw0 f k hrs hrp hwov hwc hwd hwr hadd hfetch ht⟩

/-- C2 witness: on a fresh Local manager with prefix `APP`, the file value
`8080` for `server.port` is overridden by `APP_SERVER_PORT=9`. -/
theorem c2_env_precedence_witness :
    (localEnvProvider.load (.present (.ok [("server.port", Value.vStr "8080")]))
        [("APP_SERVER_PORT", "9")] Viper.new none).viper.get
        [("APP_SERVER_PORT", "9")] "server.port" = some (Value.vStr "9") :=
  (c2_env_precedence Unit localEnvProvider remoteEnvProvider
      [("server.port", Value.vStr "8080")] [("server.port", Value.vStr "8500")]
      [("APP_SERVER_PORT", "9")] [] Viper.new Viper.new none none remoteEnvFetch
      "server.port" rfl (by decide) (fun _ hp => nomatch hp) rfl rfl rfl (by decide)
      (fun _ hp => nomatch hp) rfl rfl rfl rfl rfl (by decide)).1.2

/-- C3: the typed getters read the store under the shared lock and
`ConfigManager.Load` mutates it under the exclusive lock, but the composed
callback of `ConfigManager.Watch` calls `cm.provider.Load()` with no lock
held at all, so its store mutation happens outside the write lock and can
race a concurrent reader. -/
theorem c3_watch_reload_bypasses_write_lock :
    readsUnderLock getterTrace false false = true ∧
    writesUnderWriteLock (managerLoadTrace false) false = true ∧
    writesUnderWriteLock (managerLoadTrace true) false = true ∧
    writesUnderWriteLock watchReloadCallbackTrace false = false := by
  decide

/-- C4 counterexample: after `Close()` the getters keep answering from the
retained store instead of failing with the closed error — `GetString`
still returns the stored value and `IsSet` still answers true on a closed
manager. -/
theorem c4_getters_after_close_counterexample :
    closedAfter.closed = true ∧
    ConfigManager.getString closedAfter [] "k" = "x" ∧
    ConfigManager.isSet closedAfter [] "k" = true := by
  decide

/-- C4 (amended): the closed flag is monotonic — `Close` sets it and
returns nil, no operation resets it — `Load` on a closed manager fails
with the closed error leaving the state untouched, and a second `Close`
is a successful no-op; but the read-only operations (typed getters,
`IsSet`, `AllKeys`) never consult the flag: their answers are independent
of it. -/
theorem c4_closed_monotonic_only_load_rejected (σ : Type)
    (doLoad : Viper → Option σ → LoadResult σ) (s : CMState σ) (env : EnvMap) (k : String)
    (hclosed : s.closed = true) :
    (ConfigManager.close s).1 = none ∧
    (∀ s' : CMState σ, (ConfigManager.close s').2.closed = true) ∧
    (∀ s' : CMState σ, (ConfigManager.load doLoad s').2.closed = s'.closed) ∧
    ConfigManager.close s = (none, s) ∧
    ConfigManager.load doLoad s = (some .closed, s) ∧
    (∀ (s' : CMState σ) (b : Bool),
      ConfigManager.getString { s' with closed := b } env k
        = ConfigManager.getString s' env k) ∧
    (∀ (s' : CMState σ) (b : Bool),
      ConfigManager.isSet { s' with closed := b } env k = ConfigManager.isSet s' env k) ∧
    (∀ (s' : CMState σ) (b : Bool),
      ConfigManager.allKeys { s' with closed := b } = ConfigManager.allKeys s') := by
  refine ⟨?_, ?_, ?_, ?_, ?_, fun _ _ => rfl, fun _ _ => rfl, fun _ _ => rfl⟩
  · cases h : s.closed <;> simp [ConfigManager.close, h]
  · intro s'
    cases h : s'.closed <;> simp [ConfigManager.close, h]
  · intro s'
    cases h : s'.closed <;> simp [ConfigManager.load, h]
  · simp [ConfigManager.close, hclosed]
  · simp [ConfigManager.load, hclosed]

/-- C4 witness: on the concretely closed manager state, `Load` returns the
closed error and changes nothing. -/
theorem c4_closed_witness :
    ConfigManager.load (fun (v : Viper) (sv : Option Unit) => ⟨v, sv, none⟩) closedAfter
      = (some LoadErr.closed, closedAfter) :=
  (c4_closed_monotonic_only_load_rejected Unit (fun v sv => ⟨v, sv, none⟩) closedAfter
      [] "k" (by decide)).2.2.2.2.1

/-- C5 counterexample: a `Load()` failing validation is not atomic — when
the error is returned, the store already holds the rejected file's value
and the schema object already holds the freshly decoded data. -/
theorem c5_failed_load_partial_state_counterexample :
    badPortLoad.error = some (LoadErr.validationFailed "AppConfig.Server.Port" "required") ∧
    badPortLoad.viper.get [] "server.port" = some (Value.vStr "0") ∧
    badPortLoad.schemaVal = some "decoded-port-0" := by
  decide

/-- C5 (amended): a failed `Load` surfaces its error and leaves the
manager usable — a further `Load` on the un-closed manager delegates to
the provider instead of failing — but performs no rollback: on a
validation failure the returned state carries the failed source's data in
the store and the decoded value in the schema object. -/
theorem c5_failure_not_atomic_but_recoverable (σ : Type) (l : LocalConfigProvider σ)
    (sb : SchemaBinder σ) (data : List (String × Value)) (env : EnvMap) (v0 : Viper)
    (sv0 : Option σ) (sv : σ) (e : Violation) (rest : List Violation)
    (hsch : l.schema = some sb)
    (hdec : sb.decode { l.prepare v0 with config := toLayer data } env = .ok sv)
    (hval : sb.validate sv = .invalid e rest) :
    (l.load (.present (.ok data)) env v0 sv0).error
      = some (.validationFailed e.nameSpace e.tag) ∧
    (l.load (.present (.ok data)) env v0 sv0).viper
      = { l.prepare v0 with config := toLayer data } ∧
    (l.load (.present (.ok data)) env v0 sv0).schemaVal = some sv ∧
    (∀ (s : CMState σ) (doLoad2 : Viper → Option σ → LoadResult σ), s.closed = false →
      ConfigManager.load doLoad2 s = ((doLoad2 s.viper s.schemaVal).error,
        { s with viper := (doLoad2 s.viper s.schemaVal).viper,
                 schemaVal := (doLoad2 s.viper s.schemaVal).schemaVal })) := by
  refine ⟨?_, ?_, ?_, ?_⟩
  · simp [LocalConfigProvider.load, LocalConfigProvider.finishLoad, hsch, hdec, hval,
      LocalConfigProvider.validateConfig]
  · simp [LocalConfigProvider.load, LocalConfigProvider.finishLoad, hsch, hdec, hval,
      LocalConfigProvider.validateConfig]
  · simp [LocalConfigProvider.load, LocalConfigProvider.finishLoad, hsch, hdec, hval,
      LocalConfigProvider.validateConfig]
  · intro s doLoad2 hcl
    simp [ConfigManager.load, hcl]

/-- C5 witness: the concrete failed validation load returns the
first-violation error while the schema object holds the decoded value. -/
theorem c5_failure_witness :
    badPortLoad.schemaVal = some "decoded-port-0" :=
  (c5_failure_not_atomic_but_recoverable String badPortProvider badPortBinder
      [("server.port", Value.vStr "0")] [] Viper.new none "decoded-port-0"
      { nameSpace := "AppConfig.Server.Port", tag := "required" } [] rfl rfl rfl).2.2.1

/-- C6: with no schema configured, a local `Load` against an absent file
succeeds exactly when the defaults map is non-empty — with empty defaults
it fails with the source-not-found error — and `IsSet` holds for every
key of the defaults map afterwards. -/
theorem c6_absent_file_defaults (σ : Type) (l : LocalConfigProvider σ) (env : EnvMap)
    (v0 : Viper) (sv0 : Option σ) (hsch : l.schema = none) :
    ((l.load .absent env v0 sv0).error = none ↔ l.defaults ≠ []) ∧
    (l.defaults = [] →
      (l.load .absent env v0 sv0).error = some (.sourceNotFound l.path)) ∧
    (∀ k, (∃ p ∈ l.defaults, goToLower p.1 = goToLower k) →
      (l.load .absent env v0 sv0).viper.isSet env k = true) := by
  have hv : (l.load .absent env v0 sv0).viper = l.prepare v0 := by
    unfold LocalConfigProvider.load LocalConfigProvider.finishLoad
    rw [hsch]
    by_cases hd : l.defaults.isEmpty <;> simp [hd]
  have herr : (l.load .absent env v0 sv0).error
      = if l.defaults.isEmpty then some (.sourceNotFound l.path) else none := by
    unfold LocalConfigProvider.load LocalConfigProvider.finishLoad
    rw [hsch]
    by_cases hd : l.defaults.isEmpty <;> simp [hd]
  refine ⟨?_, ?_, ?_⟩
  · rw [herr]
    cases l.defaults <;> simp
  · intro hd
    rw [herr, hd]
    rfl
  · intro k hex
    rw [Viper.isSet, hv, Viper.get]
    apply find_isSome_of_defaults
    rw [prepare_defaults_find]
    have hs := defaultsSupply_isSome l.defaults (goToLower k) hex
    cases hq : defaultsSupply l.defaults (goToLower k) with
    | some w => simp
    | none => rw [hq] at hs; cases hs

/-- C6 witness: the provider with the default `db.port` succeeds against
the absent path and `IsSet db.port` holds. -/
theorem c6_absent_file_defaults_witness :
    (stale1Provider.load .absent [] Viper.new none).viper.isSet [] "db.port" = true := by
  refine (c6_absent_file_defaults Unit stale1Provider [] Viper.new none rfl).2.2 "db.port"
    ⟨("db.port", Value.vInt 5432), ?_, ?_⟩ <;> decide

/-- C7: with a schema configured, a decode failure surfaces the decoder's
error verbatim while a constraint violation surfaces a validation error
carrying the fully-qualified field path and the rule tag of the first
violation only; the two error kinds are distinct constructors. -/
theorem c7_first_violation_and_distinct_decode_error (σ : Type) (l : LocalConfigProvider σ)
    (sb : SchemaBinder σ) (data : List (String × Value)) (env : EnvMap) (v0 : Viper)
    (sv0 : Option σ) (msg : String) (sv : σ) (e : Violation) (rest : List Violation)
    (hsch : l.schema = some sb) :
    (sb.decode { l.prepare v0 with config := toLayer data } env = .error msg →
      (l.load (.present (.ok data)) env v0 sv0).error = some (.decodeFailed msg)) ∧
    (sb.decode { l.prepare v0 with config := toLayer data } env = .ok sv →
      sb.validate sv = .invalid e rest →
      (l.load (.present (.ok data)) env v0 sv0).error
        = some (.validationFailed e.nameSpace e.tag)) ∧
    (∀ a b c, LoadErr.decodeFailed a ≠ LoadErr.validationFailed b c) := by
  refine ⟨fun hdec => ?_, fun hdec hval => ?_, fun a b c h => ?_⟩
  · simp [LocalConfigProvider.load, LocalConfigProvider.finishLoad, hsch, hdec]
  · simp [LocalConfigProvider.load, LocalConfigProvider.finishLoad, hsch, hdec, hval,
      LocalConfigProvider.validateConfig]
  · exact LoadErr.noConfusion h

/-- C7 witness: the concrete validation failure reports the first
violation's field path and rule tag. -/
theorem c7_first_violation_witness :
    badPortLoad.error = some (LoadErr.validationFailed "AppConfig.Server.Port" "required") :=
  (c7_first_violation_and_distinct_decode_error String badPortProvider badPortBinder
      [("server.port", Value.vStr "0")] [] Viper.new none "" "decoded-port-0"
      { nameSpace := "AppConfig.Server.Port", tag := "required" } [] rfl).2.1 rfl rfl

/-- C8: on every change event the composed callback of
`ConfigManager.Watch` first runs the provider's `Load`, logs a failure
instead of propagating it, never stops the subscription, and always ends
by invoking the caller's `onChange`, whatever the reload's outcome. -/
theorem c8_composed_callback_swallows_reload_error (res : Option LoadErr) (e : LoadErr) :
    (composedOnChange res).head? = some .providerLoadCall ∧
    (composedOnChange res).getLast? = some .userOnChangeCall ∧
    WatchEvt.userOnChangeCall ∈ composedOnChange res ∧
    WatchEvt.errorPropagated e ∉ composedOnChange res ∧
    WatchEvt.subscriptionStopped ∉ composedOnChange res ∧
    WatchEvt.errorLogged e ∈ composedOnChange (some e) := by
  cases res <;> simp [composedOnChange]

/-- C9: the remote load runs against its own 30-second internal deadline —
the method takes no caller context — and when the fetch has not completed
within it, the call returns the dedicated timeout error while the caller
observes the pre-call store; that error is a constructor distinct from the
connection, read, decode and validation errors. -/
theorem c9_remote_timeout_distinguished (σ : Type) (r : RemoteConfigProvider σ)
    (f : RemoteFetch) (env : EnvMap) (v0 : Viper) (sv0 : Option σ)
    (ht : remoteLoadTimeoutSeconds ≤ f.elapsedSeconds) :
    remoteLoadTimeoutSeconds = 30 ∧
    (r.load f env v0 sv0).error = some .timeout ∧
    (r.load f env v0 sv0).viper = v0 ∧
    (∀ msg, LoadErr.timeout ≠ .addRemoteProviderFailed msg ∧
      LoadErr.timeout ≠ .readRemoteFailed msg ∧
      LoadErr.timeout ≠ .decodeFailed msg ∧
      LoadErr.timeout ≠ .validatorOther msg) ∧
    (∀ a b, LoadErr.timeout ≠ .validationFailed a b) ∧
    (∀ es, LoadErr.timeout ≠ .validatorRaw es) := by
  refine ⟨rfl, ?_, ?_, ?_, ?_, ?_⟩
  · simp [RemoteConfigProvider.load, ht]
  · simp [RemoteConfigProvider.load, ht]
  · exact fun msg => ⟨fun h => (nomatch h), fun h => (nomatch h), fun h => (nomatch h),
      fun h => (nomatch h)⟩
  · exact fun a b h => nomatch h
  · exact fun es h => nomatch h

/-- C9 witness: a fetch that needs the full 30 seconds makes the concrete
remote load return the timeout error. -/
theorem c9_remote_timeout_witness :
    (remoteEnvProvider.load timeoutFetch [] Viper.new none).error = some LoadErr.timeout :=
  (c9_remote_timeout_distinguished Unit remoteEnvProvider timeoutFetch [] Viper.new none
      (by decide)).2.1

/-- C10: `New` wires no watcher when a remote descriptor is present and
the watch option is absent — `Watch` then returns success immediately,
registers nothing, and no notification is ever delivered — while a
manager without a remote descriptor always receives the local watcher,
watch option or not. -/
theorem c10_remote_without_watch_option_has_no_watcher (path : String)
    (opts : List ManagerOption) (ctxNil : Bool) (n : Nat) (rp : RemoteProvider)
    (hrp : (New path opts).1.remoteProvider = some rp)
    (hw : (New path opts).1.watchEnabled = false) :
    (New path opts).2.watcher = none ∧
    ConfigManager.watch (New path opts).2 ctxNil = { err := none, registered := false } ∧
    deliveredNotifications (New path opts).2 ctxNil n = 0 ∧
    (∀ (path2 : String) (opts2 : List ManagerOption),
      (New path2 opts2).1.remoteProvider = none →
      (New path2 opts2).2.watcher = some .localWatcher ∧
      (New path2 opts2).2.provider = .localProvider) := by
  have hwire : (New path opts).2.watcher = none := by
    unfold New at hrp hw ⊢
    simp only at hrp hw ⊢
    rw [hrp]
    simp [hw]
  refine ⟨hwire, ?_, ?_, ?_⟩
  · rw [ConfigManager.watch, hwire]
  · rw [deliveredNotifications, ConfigManager.watch, hwire]
    rfl
  · intro path2 opts2 h2
    unfold New at h2 ⊢
    simp only at h2 ⊢
    rw [h2]
    exact ⟨rfl, rfl⟩

/-- C10 witness: a manager built with only a remote descriptor has no
watcher and its `Watch` registers nothing. -/
theorem c10_remote_without_watch_option_witness :
    (New "app.yaml" remoteOpts).2.watcher = none :=
  (c10_remote_without_watch_option_has_no_watcher "app.yaml" remoteOpts false 5
      etcdDescriptor (by decide) (by decide)).1

end Gobits
